import Mathlib

/-
  Verification development for the PodPulse app (src/app.py).

  The file shallowly embeds the pure logic of app.py:
  - the source-registry callbacks `add_source` / `update_sources_in_db` and the
    delete-button handler, as functions on an explicit state record holding the
    relevant slice of `st.session_state` together with the persisted
    `trusted_sources` cell of the active project row;
  - the feed aggregation `fetch_all_news`, with the external feed parser
    abstracted as a function from a URL to an optional list of parsed entries
    (`none` models the exception swallowed by the `except: continue` branch);
  - the `podcasts`-table operations issued by the UI handlers (insert of the
    new-podcast form, update of the Save & Sync button) over a schemaless row
    model, and the sidebar loaders that read a row back;
  - the prompt f-string of `generate_episode`.
-/

namespace PodPulse

/-- Models Python `str.strip()` with no argument: remove whitespace from both
ends of the string (used as `st.session_state.url_input.strip()`, app.py:42). -/
def pyStrip (s : String) : String :=
  ⟨((s.data.dropWhile Char.isWhitespace).reverse.dropWhile Char.isWhitespace).reverse⟩

/-- A parsed feed entry as read by app.py:54: the `title`, `summary` and `link`
fields are each optional (`entry.get` may find them missing). -/
structure Entry where
  title : Option String
  summary : Option String
  link : Option String

/-- Models Python f-string interpolation of a value that may be `None`:
`entry.get('title')` and `entry.get('link')` render as the literal text
`None` when the field is missing (app.py:54). -/
def pyOptStr : Option String → String
  | none => "None"
  | some s => s

/-- One article block appended per entry (app.py:54):
`f"TITLE: {entry.get('title')}\nSUMMARY: {entry.get('summary', '')}\nURL: {entry.get('link')}\n"`.
A missing summary defaults to the empty string; a missing title or link
renders as `None`. -/
def renderEntry (e : Entry) : String :=
  "TITLE: " ++ pyOptStr e.title ++ "\nSUMMARY: " ++ e.summary.getD "" ++
    "\nURL: " ++ pyOptStr e.link ++ "\n"

/-- Abstraction of the external world seen by `feedparser.parse`: each source
URL either raises (modelled `none`, caught by the `except: continue` branch of
app.py:55) or yields the ordered list of entries of the parsed feed. -/
def FeedWorld : Type := String → Option (List Entry)

/-- Blocks contributed by a single source inside the loop of `fetch_all_news`
(app.py:50-55): the first `limit` entries of the parsed feed, each rendered;
a source whose parse raises contributes nothing. -/
def sourceBlocks (world : FeedWorld) (src : String) (limit : Nat) : List String :=
  match world src with
  | none => []
  | some entries => (entries.take limit).map renderEntry

/-- The `articles` list built by the `for src in rss_sources` loop of
`fetch_all_news` (app.py:49-55), one source at a time in list order. -/
def fetchArticles (world : FeedWorld) : List String → Nat → List String
  | [], _ => []
  | src :: rest, limit => sourceBlocks world src limit ++ fetchArticles world rest limit

/-- Models `fetch_all_news(rss_sources, limit=5)` (app.py:48-56): the joined
article blocks, with a per-source entry limit defaulting to 5. -/
def fetch_all_news (world : FeedWorld) (rss_sources : List String)
    (limit : Nat := 5) : String :=
  String.intercalate "\n" (fetchArticles world rss_sources limit)

/-- A row of the external `podcasts` table, modelled schemalessly: every column
the program ever reads or writes is a slot, `none` meaning the column was never
written for this row (reads of such a column fall back to the dict-get default
used at the call site). The row keeps distinct `target_language` and `language`
slots because the Save & Sync handler writes the column name `language`
(app.py:169) while the sidebar loader reads `target_language` (app.py:148). -/
structure Podcast where
  id : Nat
  owner_email : String
  podcast_name : String
  theme : Option String := none
  episode_goal : Option String := none
  target_language : Option String := none
  language : Option String := none
  trusted_sources : Option (List String) := none

/-- Models the insert issued by the new-podcast form (app.py:179): only
`owner_email` and `podcast_name` are supplied; every other column is left to
its default (unwritten). -/
def new_podcast_row (id : Nat) (owner name : String) : Podcast :=
  { id := id, owner_email := owner, podcast_name := name }

/-- Models `supabase.table("podcasts").insert(...)` for the new-podcast form:
the new row is added to the table. -/
def create_podcast (db : List Podcast) (id : Nat) (owner name : String) :
    List Podcast :=
  db ++ [new_podcast_row id owner name]

/-- Models the Save & Sync handler (app.py:165-171):
`update({"theme": theme, "episode_goal": focus, "language": target_lang,
"trusted_sources": source_list}).eq("id", curr['id'])`. Note the write goes to
the `language` column, not `target_language`. -/
def save_and_sync (db : List Podcast) (pid : Nat) (theme focus target_lang : String)
    (sources : List String) : List Podcast :=
  db.map fun p =>
    if p.id == pid then
      { p with theme := some theme, episode_goal := some focus,
               language := some target_lang, trusted_sources := some sources }
    else p

/-- Look a row up by id, as the equality-filtered select does. -/
def findPodcast (db : List Podcast) (pid : Nat) : Option Podcast :=
  db.find? fun p => p.id == pid

/-- Sidebar read of the theme field: `curr.get('theme', '')` (app.py:140). -/
def loadTheme (p : Podcast) : String := p.theme.getD ""

/-- Sidebar read of the goal field: `curr.get('episode_goal', '')` (app.py:141). -/
def loadGoal (p : Podcast) : String := p.episode_goal.getD ""

/-- Sidebar read of the saved language: `curr.get('target_language', 'English')`
(app.py:148). -/
def loadLang (p : Podcast) : String := p.target_language.getD "English"

/-- Sidebar read of the source list: `curr.get('trusted_sources', [])`
(app.py:136). -/
def loadSources (p : Podcast) : List String := p.trusted_sources.getD []

/-- The state the source-registry callbacks act on: the in-memory
`st.session_state.source_list` and `st.session_state.url_input`, together with
the persisted `trusted_sources` cell of the active project row. A session with
an active project is assumed (`current_podcast_id` present), as in the sidebar
flow that loads a project before the registry is shown. -/
structure SourceState where
  source_list : List String
  url_input : String
  db_trusted : List String

/-- Models `update_sources_in_db` (app.py:37-39): the current in-memory list is
written to the `trusted_sources` column of the active project row. -/
def update_sources_in_db (s : SourceState) : SourceState :=
  { s with db_trusted := s.source_list }

/-- Models the `add_source` callback (app.py:41-46): strip the input; if it is
non-empty and not already present, append it and persist; in every case clear
the input box. -/
def add_source (s : SourceState) : SourceState :=
  let new_url := pyStrip s.url_input
  if new_url ≠ "" ∧ new_url ∉ s.source_list then
    let s1 : SourceState := { s with source_list := s.source_list ++ [new_url] }
    let s2 := update_sources_in_db s1
    { s2 with url_input := "" }
  else
    { s with url_input := "" }

/-- Typing `input` into the Add Source box and firing `on_change=add_source`
(app.py:184). -/
def submit_url (s : SourceState) (input : String) : SourceState :=
  add_source { s with url_input := input }

/-- Models the per-row X button handler (app.py:189-191):
`source_list.pop(i)` then `update_sources_in_db()`. -/
def remove_click (s : SourceState) (i : Nat) : SourceState :=
  update_sources_in_db { s with source_list := s.source_list.eraseIdx i }

/-- A user mutation of the active source list: an Add Source submission or an
X-button click. -/
inductive SourceOp where
  | add (input : String)
  | remove (i : Nat)

/-- Apply one mutation. -/
def stepOp (s : SourceState) : SourceOp → SourceState
  | SourceOp.add input => submit_url s input
  | SourceOp.remove i => remove_click s i

/-- Apply a sequence of mutations in order. -/
def runOps (s : SourceState) (ops : List SourceOp) : SourceState :=
  ops.foldl stepOp s

/-- Literal pieces of the prompt f-string of `generate_episode`
(app.py:66-102), in order; the substituted expressions `{theme}`, `{focus}`,
`{news_pool}` and the seven occurrences of `{target_lang}` sit between them. -/
def promptP1 : String :=
  "\n    You are a professional Multilingual Podcast Producer.\n    \n    INTENT (User provided these in native script):\n    - Theme: "

/-- Piece between `{theme}` and `{focus}`. -/
def promptP2 : String := "\n    - Focus: "

/-- Piece between `{focus}` and `{news_pool}`. -/
def promptP3 : String :=
  "\n\n    CONTEXT:\n    Research the following NEWS POOL and other websites on internet. Then select 10 stories.\n    "

/-- Prefix of `promptP3` ending just before the story-count instruction. -/
def promptP3a : String :=
  "\n\n    CONTEXT:\n    Research the following NEWS POOL and other websites on internet. Then "

/-- Suffix of `promptP3` after the story-count instruction. -/
def promptP3b : String := ".\n    "

/-- Piece between `{news_pool}` and the first `{target_lang}`. -/
def promptP4 : String :=
  "\n\n    OUTPUT RULES:\n    1. Write the final script entirely in the "

/-- Piece between the first and second `{target_lang}`. -/
def promptP5 : String :=
  " script.\n    2. If the user input was in a native script, honor that specific cultural context. don\x27t restrict to regional boundaries; include contents apart from their region as well if relevant. \n    3. For stories outside the News Pool, draw from your internal real-time knowledge of trending events on websites like Reddit, Hacker News, or niche industry blogs on the internet.\n    4. Format the response as high-energy \x27Segment Cards\x27.\n    5. Do NOT hallucinate fake news; only discuss verified events that have actually occurred. MUST provide the URLs as a proof for the user to verify the content    \n    6. Provide the direct, valid URL for every story. If you don\x27t have an URL don\x27t pick that story. URLs must be in english and no explanation is needed about the URL.\n    7. No translations or transcriptions in English or other languages; the entire output must be in "

/-- Piece between the second and third `{target_lang}`. -/
def promptP6 : String :=
  ".\n\n    CRITICAL: You must translate BOTH the content and the structural labels (headings) \n    into "

/-- Piece between the third and fourth `{target_lang}`. -/
def promptP7 : String :=
  ". Use the following mapping for the structure:\n    - \"Why It Fits\" -> [Translate this to "

/-- Piece between the fourth and fifth `{target_lang}`. -/
def promptP8 : String :=
  "]\n    - \"Talking Points\" -> [Translate this to "

/-- Piece between the fifth and sixth `{target_lang}`. -/
def promptP9 : String :=
  "]\n    - \"Source\" -> [Translate this to "

/-- Piece between the sixth and seventh `{target_lang}`. -/
def promptP10 : String :=
  "]\n\n    OUTPUT FORMAT (in "

/-- Final piece, after the seventh `{target_lang}`. -/
def promptP11 : String :=
  "):\n    ### 💎 [Segment Title]\n\n    **🎙️ Why It Fits:** [Context]\n\n    **📝 Talking Points:** - [Bullet points]\n\n    **🔗 Source:** [URL]\n\n    ---\n    "

/-- The prompt string composed by `generate_episode` (app.py:66-102): the
f-string with `{theme}`, `{focus}`, `{news_pool}` and `{target_lang}`
substituted. -/
def episode_prompt (theme focus news_pool target_lang : String) : String :=
  promptP1 ++ theme ++ promptP2 ++ focus ++ promptP3 ++ news_pool ++
    promptP4 ++ target_lang ++ promptP5 ++ target_lang ++ promptP6 ++ target_lang ++
    promptP7 ++ target_lang ++ promptP8 ++ target_lang ++ promptP9 ++ target_lang ++
    promptP10 ++ target_lang ++ promptP11

/-- Containment of `sub` in `s` as a contiguous substring. -/
def strContains (s sub : String) : Prop := ∃ a b : String, s = a ++ sub ++ b

/-- Concrete feed world used to exercise the partial-failure policy: one URL
raises, every other URL parses to a two-entry feed. -/
def demoWorld : FeedWorld := fun s =>
  if s = "https://bad.example/feed" then none
  else some [⟨some "T1", some "S1", some "https://a.example/1"⟩,
             ⟨some "T2", none, some "https://a.example/2"⟩]

/-- Row produced by saving a loaded project and looking it back up: the demo
instance for the Save & Sync round trip. -/
def demoSavedRow : Option Podcast :=
  findPodcast
    (save_and_sync
      [{ id := 1, owner_email := "owner@example.com", podcast_name := "Show",
         theme := some "Old Theme", episode_goal := some "Old Goal",
         target_language := some "Tamil",
         trusted_sources := some ["https://old.example/feed"] }]
      1 "AI Weekly" "cover funding news" "French" ["https://s.example/feed"])
    1

/-- A source whose parse succeeds contributes at most `limit` blocks. -/
lemma sourceBlocks_length_le (world : FeedWorld) (src : String) (limit : Nat) :
    (sourceBlocks world src limit).length ≤ limit := by
  unfold sourceBlocks
  cases world src with
  | none => simp
  | some es =>
      simp only [List.length_map, List.length_take]
      exact min_le_left _ _

/-- Splitting the CONTEXT piece of the prompt around the story-count
instruction. -/
lemma promptP3_split : promptP3 = promptP3a ++ "select 10 stories" ++ promptP3b := by
  decide

/-- Successful add: a non-empty stripped URL not yet present is appended and
the new list is persisted; the input box is cleared. -/
lemma submit_url_pos (t : SourceState) (v : String) (h1 : pyStrip v ≠ "")
    (h2 : pyStrip v ∉ t.source_list) :
    submit_url t v =
      ⟨t.source_list ++ [pyStrip v], "", t.source_list ++ [pyStrip v]⟩ := by
  simp [submit_url, add_source, update_sources_in_db, h1, h2]

/-- Ignored add: a duplicate or empty stripped URL changes neither the list nor
the persisted value; only the input box is cleared. -/
lemma submit_url_neg (t : SourceState) (v : String)
    (h : ¬(pyStrip v ≠ "" ∧ pyStrip v ∉ t.source_list)) :
    submit_url t v = ⟨t.source_list, "", t.db_trusted⟩ := by
  simp only [submit_url, add_source, update_sources_in_db]
  rw [if_neg h]

/-- Each single mutation preserves equality of the in-memory list with the
persisted list. -/
lemma step_preserves_sync (s : SourceState) (op : SourceOp)
    (h : s.source_list = s.db_trusted) :
    (stepOp s op).source_list = (stepOp s op).db_trusted := by
  cases op with
  | add input =>
      simp only [stepOp]
      by_cases hc : pyStrip input ≠ "" ∧ pyStrip input ∉ s.source_list
      · rw [submit_url_pos s input hc.1 hc.2]
      · rw [submit_url_neg s input hc]
        exact h
  | remove i => rfl

/-- C1: the claim says the theme, episode goal, target language and
trusted-source list read back after a Save & Sync equal the values most
recently saved. The code violates the target-language part: the handler writes
the `language` column (app.py:169) while the loader reads `target_language`
(app.py:148). At the concrete failing input below, a project whose stored
target language is Tamil is saved with output language French; reloading it by
id returns theme, goal and sources as saved, but target language Tamil, not
French. -/
theorem C1_target_language_not_reloaded :
    demoSavedRow.map loadTheme = some "AI Weekly"
    ∧ demoSavedRow.map loadGoal = some "cover funding news"
    ∧ demoSavedRow.map loadSources = some ["https://s.example/feed"]
    ∧ demoSavedRow.map loadLang = some "Tamil"
    ∧ ¬(demoSavedRow.map loadLang = some "French") := by
  decide

/-- C2: `add_source` appends the stripped URL iff it is non-empty and not
already present, then persists the full list; a duplicate or empty input is
silently ignored (state unchanged, no error channel exists); adding the same
URL twice yields exactly one copy. -/
theorem C2_add_source_contract (s : SourceState) (input : String)
    (hne : pyStrip input ≠ "") (hmem : pyStrip input ∉ s.source_list) :
    (submit_url s input).source_list = s.source_list ++ [pyStrip input]
    ∧ (submit_url s input).db_trusted = s.source_list ++ [pyStrip input]
    ∧ List.count (pyStrip input) (submit_url (submit_url s input) input).source_list = 1
    ∧ (∀ (t : SourceState) (v : String),
        (submit_url t v).source_list =
          if pyStrip v ≠ "" ∧ pyStrip v ∉ t.source_list
          then t.source_list ++ [pyStrip v] else t.source_list)
    ∧ (∀ (t : SourceState) (v : String),
        (pyStrip v = "" ∨ pyStrip v ∈ t.source_list) →
          (submit_url t v).source_list = t.source_list
          ∧ (submit_url t v).db_trusted = t.db_trusted) := by
  have hpos := submit_url_pos s input hne hmem
  have hmem2 : pyStrip input ∈ (submit_url s input).source_list := by
    rw [hpos]; simp
  have hneg2 := submit_url_neg (submit_url s input) input
    (fun hc => hc.2 hmem2)
  refine ⟨by rw [hpos], by rw [hpos], ?_, ?_, ?_⟩
  · rw [hneg2]
    show List.count (pyStrip input) (submit_url s input).source_list = 1
    rw [hpos]
    show List.count (pyStrip input) (s.source_list ++ [pyStrip input]) = 1
    simp [List.count_append, List.count_eq_zero_of_not_mem hmem]
  · intro t v
    by_cases hc : pyStrip v ≠ "" ∧ pyStrip v ∉ t.source_list
    · rw [submit_url_pos t v hc.1 hc.2, if_pos hc]
    · rw [submit_url_neg t v hc, if_neg hc]
  · intro t v hv
    have hc : ¬(pyStrip v ≠ "" ∧ pyStrip v ∉ t.source_list) := by
      rcases hv with hv | hv
      · exact fun hc => hc.1 hv
      · exact fun hc => hc.2 hv
    rw [submit_url_neg t v hc]
    exact ⟨rfl, rfl⟩

/-- C2 witness: the contract applied at a concrete state and input. -/
theorem C2_add_source_contract_witness :
    (pyStrip " https://a.example/feed " ≠ ""
      ∧ pyStrip " https://a.example/feed " ∉ ([] : List String))
    ∧ (submit_url ⟨[], "", []⟩ " https://a.example/feed ").source_list
        = ["https://a.example/feed"]
    ∧ List.count "https://a.example/feed"
        (submit_url (submit_url ⟨[], "", []⟩ " https://a.example/feed ")
          " https://a.example/feed ").source_list = 1 := by
  have h := C2_add_source_contract ⟨[], "", []⟩ " https://a.example/feed "
    (by decide) (by decide)
  refine ⟨⟨by decide, by decide⟩, ?_, ?_⟩
  · exact h.1.trans (by decide)
  · have e : pyStrip " https://a.example/feed " = "https://a.example/feed" := by decide
    rw [← e]
    exact h.2.2.1

/-- C3: aggregation over an ordered source list with per-source limit `m`
yields the per-source blocks concatenated in source-list order, at most
`k * m` blocks in total, each block the three-field rendering of some entry;
`fetch_all_news` joins exactly this list with the default limit 5. -/
theorem C3_aggregation_shape (world : FeedWorld) (srcs : List String) (limit : Nat) :
    fetchArticles world srcs limit
      = (srcs.map fun s => sourceBlocks world s limit).flatten
    ∧ (fetchArticles world srcs limit).length ≤ srcs.length * limit
    ∧ (∀ a ∈ fetchArticles world srcs limit, ∃ e : Entry, a = renderEntry e)
    ∧ fetch_all_news world srcs = String.intercalate "\n" (fetchArticles world srcs 5) := by
  refine ⟨?_, ?_, ?_, rfl⟩
  · induction srcs with
    | nil => rfl
    | cons s rest ih => simp [fetchArticles, ih]
  · induction srcs with
    | nil => simp [fetchArticles]
    | cons s rest ih =>
        have h1 := sourceBlocks_length_le world s limit
        simp only [fetchArticles, List.length_append, List.length_cons]
        calc (sourceBlocks world s limit).length + (fetchArticles world rest limit).length
            ≤ limit + rest.length * limit := Nat.add_le_add h1 ih
          _ = (rest.length + 1) * limit := by ring
  · induction srcs with
    | nil =>
        intro a ha
        simp [fetchArticles] at ha
    | cons s rest ih =>
        intro a ha
        simp only [fetchArticles, List.mem_append] at ha
        rcases ha with ha | ha
        · unfold sourceBlocks at ha
          cases hw : world s with
          | none => rw [hw] at ha; simp at ha
          | some es =>
              rw [hw] at ha
              obtain ⟨e, _, he⟩ := List.mem_map.mp ha
              exact ⟨e, he.symm⟩
        · exact ih a ha

/-- C4: a source whose parse raises contributes zero blocks and the loop
continues with all remaining sources; the aggregate over a list containing the
failing source equals the aggregates of the sources before and after it,
concatenated, with no error value anywhere in the result type. -/
theorem C4_failed_source_skipped (world : FeedWorld) (u : String)
    (s1 s2 : List String) (limit : Nat) (h : world u = none) :
    fetchArticles world (s1 ++ u :: s2) limit
      = fetchArticles world s1 limit ++ fetchArticles world s2 limit := by
  induction s1 with
  | nil => simp [fetchArticles, sourceBlocks, h]
  | cons a rest ih => simp [fetchArticles, ih, List.append_assoc]

/-- C4 witness: one unreachable URL between two valid ones still yields the
blocks of the two valid sources. -/
theorem C4_failed_source_skipped_witness :
    demoWorld "https://bad.example/feed" = none
    ∧ fetchArticles demoWorld
        ["https://good1.example/feed", "https://bad.example/feed",
         "https://good2.example/feed"] 5
      = fetchArticles demoWorld ["https://good1.example/feed"] 5
        ++ fetchArticles demoWorld ["https://good2.example/feed"] 5 :=
  ⟨rfl, C4_failed_source_skipped demoWorld "https://bad.example/feed"
    ["https://good1.example/feed"] ["https://good2.example/feed"] 5 rfl⟩

/-- C5: the composed prompt contains the supplied theme, focus/goal and target
language verbatim, and contains the fixed story-count instruction
`select 10 stories`. -/
theorem C5_prompt_contains_inputs (theme focus news_pool target_lang : String) :
    strContains (episode_prompt theme focus news_pool target_lang) theme
    ∧ strContains (episode_prompt theme focus news_pool target_lang) focus
    ∧ strContains (episode_prompt theme focus news_pool target_lang) target_lang
    ∧ strContains (episode_prompt theme focus news_pool target_lang) "select 10 stories" := by
  unfold strContains
  refine ⟨⟨promptP1,
      promptP2 ++ focus ++ promptP3 ++ news_pool ++ promptP4 ++ target_lang ++
        promptP5 ++ target_lang ++ promptP6 ++ target_lang ++ promptP7 ++ target_lang ++
        promptP8 ++ target_lang ++ promptP9 ++ target_lang ++ promptP10 ++ target_lang ++
        promptP11, ?_⟩,
    ⟨promptP1 ++ theme ++ promptP2,
      promptP3 ++ news_pool ++ promptP4 ++ target_lang ++
        promptP5 ++ target_lang ++ promptP6 ++ target_lang ++ promptP7 ++ target_lang ++
        promptP8 ++ target_lang ++ promptP9 ++ target_lang ++ promptP10 ++ target_lang ++
        promptP11, ?_⟩,
    ⟨promptP1 ++ theme ++ promptP2 ++ focus ++ promptP3 ++ news_pool ++ promptP4,
      promptP5 ++ target_lang ++ promptP6 ++ target_lang ++ promptP7 ++ target_lang ++
        promptP8 ++ target_lang ++ promptP9 ++ target_lang ++ promptP10 ++ target_lang ++
        promptP11, ?_⟩,
    ⟨promptP1 ++ theme ++ promptP2 ++ focus ++ promptP3a,
      promptP3b ++ news_pool ++ promptP4 ++ target_lang ++
        promptP5 ++ target_lang ++ promptP6 ++ target_lang ++ promptP7 ++ target_lang ++
        promptP8 ++ target_lang ++ promptP9 ++ target_lang ++ promptP10 ++ target_lang ++
        promptP11, ?_⟩⟩
  · simp only [episode_prompt, String.append_assoc]
  · simp only [episode_prompt, String.append_assoc]
  · simp only [episode_prompt, String.append_assoc]
  · simp only [episode_prompt, promptP3_split, String.append_assoc]

/-- C6: removing a valid index from a duplicate-free source list yields a list
one shorter, missing the URL that was at that position, with the order of the
remaining entries preserved, and the result is persisted. -/
theorem C6_remove_contract (s : SourceState) (i : Nat)
    (h : i < s.source_list.length) (hnd : s.source_list.Nodup) :
    (remove_click s i).source_list.length = s.source_list.length - 1
    ∧ s.source_list[i] ∉ (remove_click s i).source_list
    ∧ (remove_click s i).source_list
        = s.source_list.take i ++ s.source_list.drop (i + 1)
    ∧ (remove_click s i).db_trusted = (remove_click s i).source_list := by
  have hsl : (remove_click s i).source_list = s.source_list.eraseIdx i := rfl
  refine ⟨?_, ?_, ?_, rfl⟩
  · rw [hsl, List.length_eraseIdx]
    simp [h]
  · rw [hsl]
    intro hmem
    rw [List.mem_eraseIdx_iff_getElem] at hmem
    obtain ⟨j, hj, hji, hgj⟩ := hmem
    exact hji ((hnd.getElem_inj_iff).mp hgj)
  · rw [hsl]
    exact List.eraseIdx_eq_take_drop_succ _ _

/-- C6 witness: the contract applied at a concrete three-element list and
index 1. -/
theorem C6_remove_contract_witness :
    (1 < (["a", "b", "c"] : List String).length
      ∧ (["a", "b", "c"] : List String).Nodup)
    ∧ (remove_click ⟨["a", "b", "c"], "", ["a", "b", "c"]⟩ 1).source_list = ["a", "c"]
    ∧ (remove_click ⟨["a", "b", "c"], "", ["a", "b", "c"]⟩ 1).db_trusted = ["a", "c"] := by
  have h := C6_remove_contract ⟨["a", "b", "c"], "", ["a", "b", "c"]⟩ 1
    (by decide) (by decide)
  refine ⟨⟨by decide, by decide⟩, h.2.2.1.trans (by decide), ?_⟩
  rw [h.2.2.2]
  exact h.2.2.1.trans (by decide)

/-- C7: starting from a state whose in-memory source list equals the persisted
trusted_sources value (as after the sidebar load), every sequence of add and
remove mutations leaves the in-memory list equal to the persisted value. -/
theorem C7_source_list_matches_db (s : SourceState) (ops : List SourceOp)
    (h : s.source_list = s.db_trusted) :
    (runOps s ops).source_list = (runOps s ops).db_trusted := by
  induction ops generalizing s with
  | nil => exact h
  | cons op rest ih =>
      have hstep := step_preserves_sync s op h
      exact ih (stepOp s op) hstep

/-- C7 witness: the invariant applied to a concrete mutation sequence from the
freshly loaded empty state. -/
theorem C7_source_list_matches_db_witness :
    ((⟨[], "", []⟩ : SourceState).source_list = (⟨[], "", []⟩ : SourceState).db_trusted)
    ∧ (runOps ⟨[], "", []⟩
        [SourceOp.add " https://a.example/rss ", SourceOp.add "https://b.example/rss",
         SourceOp.remove 0]).source_list
      = (runOps ⟨[], "", []⟩
        [SourceOp.add " https://a.example/rss ", SourceOp.add "https://b.example/rss",
         SourceOp.remove 0]).db_trusted :=
  ⟨rfl, C7_source_list_matches_db ⟨[], "", []⟩
    [SourceOp.add " https://a.example/rss ", SourceOp.add "https://b.example/rss",
     SourceOp.remove 0] rfl⟩

/-- C8: the new-podcast insert supplies only the owner identity and name; every
remaining column of the new row is left unwritten, and the sidebar loaders
render those unwritten columns as empty theme, empty goal and empty source
list. -/
theorem C8_create_project_defaults (db : List Podcast) (id : Nat)
    (owner name : String) :
    create_podcast db id owner name = db ++ [new_podcast_row id owner name]
    ∧ (new_podcast_row id owner name).owner_email = owner
    ∧ (new_podcast_row id owner name).podcast_name = name
    ∧ (new_podcast_row id owner name).theme = none
    ∧ (new_podcast_row id owner name).episode_goal = none
    ∧ (new_podcast_row id owner name).target_language = none
    ∧ (new_podcast_row id owner name).trusted_sources = none
    ∧ loadTheme (new_podcast_row id owner name) = ""
    ∧ loadGoal (new_podcast_row id owner name) = ""
    ∧ loadSources (new_podcast_row id owner name) = [] :=
  ⟨rfl, rfl, rfl, rfl, rfl, rfl, rfl, rfl, rfl, rfl⟩

/-- C9: aggregation over the empty source list returns the empty string with
no blocks and no separators, and the result does not depend on the external
feed world at all. -/
theorem C9_empty_source_list (world : FeedWorld) (limit : Nat) :
    fetch_all_news world [] limit = ""
    ∧ fetchArticles world [] limit = []
    ∧ (∀ w2 : FeedWorld, fetch_all_news world [] limit = fetch_all_news w2 [] limit) :=
  ⟨rfl, rfl, fun _ => rfl⟩

/-- C10: in the rendered three-field block, a missing summary appears as the
empty string after `SUMMARY: `, while a missing title or link appears as the
literal text `None` in the TITLE or URL line. -/
theorem C10_missing_field_rendering (t s l : String) :
    renderEntry { title := none, summary := some s, link := none }
      = "TITLE: None\nSUMMARY: " ++ s ++ "\nURL: None\n"
    ∧ renderEntry { title := some t, summary := none, link := some l }
      = "TITLE: " ++ t ++ "\nSUMMARY: \nURL: " ++ l ++ "\n" := by
  have h1 : ("TITLE: None\nSUMMARY: " : String)
      = "TITLE: " ++ "None" ++ "\nSUMMARY: " := by decide
  have h2 : ("\nSUMMARY: \nURL: " : String)
      = "\nSUMMARY: " ++ "" ++ "\nURL: " := by decide
  have h3 : ("\nURL: None\n" : String) = "\nURL: " ++ "None" ++ "\n" := by decide
  constructor
  · rw [h1, h3]
    simp [renderEntry, pyOptStr, String.append_assoc]
  · rw [h2]
    simp [renderEntry, pyOptStr, String.append_assoc]

end PodPulse
